import Mathlib

/-!
Shallow embedding of the clinical document generation pipeline of the
`chatbot_ehr_test3` repository: client/transcript/document data model,
the ownership-scoped lookup (`getClientById`), transcript listing and
insertion (`getTranscriptsByClientId`, `addTranscript` and the underlying
unique index `transcript_client_session_unique_idx`), the SOAP note
generation function (`generateSoapNoteContent` from
`artifacts/soap/generation.ts`), the API route (`app/api/soap-note/route.ts`)
and the server action (`app/actions/transcriptActions.ts`).

Strings are Lean `String`s; JavaScript `.length`, `.slice`, `.trim`,
`.split` and `.includes` are modelled character-wise by `String.length` and
the structural helpers `jsSlice`, `jsTrim`, `splitOnChar` and `containsSeq`
(the library `String.trim`-style functions do not reduce in the kernel).  Timestamps are `Nat`
keys (an order-preserving encoding of the `datetime-local` fields).
Locale-dependent date rendering (`toLocaleDateString`, `toLocaleString`)
is a `LocaleFmt` parameter of the run.  The streaming LLM call is modelled
by its observable outcome: the list of fragments emitted, and whether the
stream ended normally or failed mid-stream.
-/

namespace EHR

/-- JavaScript `String.prototype.trim()`: the string with leading and trailing
whitespace removed, implemented structurally over the character list. -/
def jsTrim (s : String) : String :=
  ⟨((s.data.dropWhile Char.isWhitespace).reverse.dropWhile Char.isWhitespace).reverse⟩

/-- JavaScript `s.slice(0, n)`: the first `n` characters of `s`. -/
def jsSlice (s : String) (n : Nat) : String :=
  ⟨s.data.take n⟩

/-- Split a character list at every occurrence of the separator character
(used to model `String.prototype.split` / `splitOn` with one-character
separators). -/
def splitOnChar (c : Char) : List Char → List (List Char)
  | [] => [[]]
  | x :: xs =>
    if x = c then [] :: splitOnChar c xs
    else
      match splitOnChar c xs with
      | [] => [[x]]
      | y :: ys => (x :: y) :: ys

/-- Decimal parse of a character list: defined exactly when the list is
non-empty and all digits (the semantics of `Number`-style strict parses). -/
def digitsToNat (l : List Char) : Option Nat :=
  if l ≠ [] ∧ l.all Char.isDigit then
    some (l.foldl (fun acc c => acc * 10 + (c.toNat - 48)) 0)
  else none

/-- `leadsWith pat l` is true when `pat` is an initial segment of `l`. -/
def leadsWith : List Char → List Char → Bool
  | [], _ => true
  | _ :: _, [] => false
  | p :: ps, x :: xs => p = x && leadsWith ps xs

/-- `containsSeq pat l` is true when `pat` occurs contiguously in `l`. -/
def containsSeq (pat : List Char) : List Char → Bool
  | [] => pat.isEmpty
  | x :: xs => leadsWith pat (x :: xs) || containsSeq pat xs

/-- Locale/timezone formatting environment used by `new Date(x).toLocaleDateString()`
and `new Date(x).toLocaleString()` in `generateSoapNoteContent`. -/
structure LocaleFmt where
  fmtDate : String → String
  fmtDateTime : Nat → String

/-- Row of the `client` table (migration `0007_common_rocket_raccoon.sql`):
id, user_id (owner), name, dob, gender, insurance_company, chief_complaint,
diagnosis (text array), medications, treatment_goals.  `dateOfBirth` is an
`Option` because `generateSoapNoteContent` guards it with a truthiness check. -/
structure Client where
  id : String
  userId : String
  name : String
  dateOfBirth : Option String
  gender : String
  insuranceCompany : String
  chiefComplaint : String
  diagnosis : List String
  medications : String
  treatmentGoals : String
deriving DecidableEq

/-- Row of the `transcript` table: id, client_id, session_datetime, content. -/
structure Transcript where
  id : String
  clientId : String
  sessionDateTime : Nat
  content : String
deriving DecidableEq

/-- One snapshot of the `document` table as written by `saveDocument`
in the SOAP route: id, title, kind, content, userId. -/
structure DocumentSnapshot where
  id : String
  title : String
  kind : String
  content : String
  userId : String
deriving DecidableEq

/-- Database state visible to the embedded operations. -/
structure Db where
  clients : List Client
  transcripts : List Transcript
  documents : List DocumentSnapshot
deriving DecidableEq

/-- `getClientById(id, userId)` from `lib/db/queries`: select from `client`
where `and(eq(client.id, id), eq(client.userId, userId))`, returning the
first matching row or `undefined`. -/
def getClientById (db : Db) (id userId : String) : Option Client :=
  (db.clients.filter (fun c => c.id == id && c.userId == userId)).head?

/-- Descending session ordering used by `orderBy(desc(transcript.sessionDateTime))`. -/
def sessionDesc (a b : Transcript) : Prop :=
  b.sessionDateTime ≤ a.sessionDateTime

instance : DecidableRel sessionDesc := fun a b =>
  inferInstanceAs (Decidable (b.sessionDateTime ≤ a.sessionDateTime))

instance : IsTotal Transcript sessionDesc :=
  ⟨fun a b => Nat.le_total b.sessionDateTime a.sessionDateTime⟩

instance : IsTrans Transcript sessionDesc :=
  ⟨fun _ _ _ h1 h2 => Nat.le_trans h2 h1⟩

/-- `getTranscriptsByClientId(clientId)` from `lib/db/queries`: select from
`transcript` where `eq(transcript.clientId, clientId)` ordered by
`desc(transcript.sessionDateTime)` (most recent first).  The row ordering
produced by the database is modelled by a sort of the filtered rows. -/
def getTranscriptsByClientId (db : Db) (clientId : String) : List Transcript :=
  List.insertionSort sessionDesc (db.transcripts.filter (fun t => t.clientId == clientId))

/-- Error thrown by the data-access layer. -/
structure DbError where
  message : String
deriving DecidableEq

/-- The storage engine's insert into `transcript`, honoring the unique index
`transcript_client_session_unique_idx` on `(client_id, session_datetime)`
(migration `0007_common_rocket_raccoon.sql`): a duplicate pair is rejected
with the driver's unique-violation message naming the index. -/
def dbInsertTranscript (db : Db) (t : Transcript) : Except DbError Db :=
  if db.transcripts.any (fun u =>
      u.clientId == t.clientId && u.sessionDateTime == t.sessionDateTime) then
    .error ⟨"duplicate key value violates unique constraint \x22transcript_client_session_unique_idx\x22"⟩
  else
    .ok { db with transcripts := db.transcripts ++ [t] }

/-- `addTranscript(transcriptData)` from `lib/db/queries`: performs the insert
and, in its `catch` block, logs the original error and rethrows
`new Error('Database error adding transcript.')` — the original message is
discarded. -/
def addTranscript (db : Db) (t : Transcript) : Except DbError (Transcript × Db) :=
  match dbInsertTranscript db t with
  | .error _ => .error ⟨"Database error adding transcript."⟩
  | .ok db2 => .ok (t, db2)

/-- `saveDocument` from `lib/db/queries` as used by the SOAP route: append a
new snapshot row. -/
def saveDocument (db : Db) (d : DocumentSnapshot) : Db :=
  { db with documents := db.documents ++ [d] }

/-! ### generateSoapNoteContent (artifacts/soap/generation.ts) -/

/-- `const MAX_PROMPT_TRANSCRIPT_CHARS = 8000`. -/
def MAX_PROMPT_TRANSCRIPT_CHARS : Nat := 8000

/-- The string appended when the combined transcript content is truncated. -/
def truncationMarker : String := "\n\n... [Content Truncated due to length]"

/-- Placeholder substituted when the combined transcript content is empty. -/
def noTranscriptsPlaceholder : String :=
  "No recent transcripts available or content was empty."

/-- The `clientDemographics` template literal of `generateSoapNoteContent`,
with each `x || "N/A"` JavaScript alternative modelled as an
empty-string test, followed by `.trim()`. -/
def renderDemographics (fmt : LocaleFmt) (c : Client) : String :=
  jsTrim ("\nClient Name: " ++ c.name
    ++ "\nDate of Birth: "
    ++ (match c.dateOfBirth with
        | some d => fmt.fmtDate d
        | none => "N/A")
    ++ "\nGender: " ++ c.gender
    ++ "\nInsurance: " ++ (if c.insuranceCompany = "" then "N/A" else c.insuranceCompany)
    ++ "\nChief Complaint: " ++ (if c.chiefComplaint = "" then "N/A" else c.chiefComplaint)
    ++ "\nDiagnosis: "
    ++ (let d := String.intercalate ", " c.diagnosis
        if d = "" then "N/A" else d)
    ++ "\nMedications: " ++ (if c.medications = "" then "N/A" else c.medications)
    ++ "\nTreatment Goals: " ++ (if c.treatmentGoals = "" then "N/A" else c.treatmentGoals)
    ++ "\n  ")

/-- The per-transcript template literal inside `recentTranscripts.map`:
`index` is the zero-based map index. -/
def renderTranscript (fmt : LocaleFmt) (index : Nat) (t : Transcript) : String :=
  "\n--- Transcript " ++ toString (index + 1) ++ " (" ++ fmt.fmtDateTime t.sessionDateTime
    ++ ") ---\n" ++ t.content ++ "\n--- End Transcript " ++ toString (index + 1) ++ " ---\n  "

/-- `recentTranscripts.map(...).join("\n\n").trim()`. -/
def combineTranscripts (fmt : LocaleFmt) (ts : List Transcript) : String :=
  jsTrim (String.intercalate "\n\n" (ts.enum.map (fun p => renderTranscript fmt p.1 p.2)))

/-- The truncation step: if the combined content exceeds
`MAX_PROMPT_TRANSCRIPT_CHARS`, replace it with the budget-sized prefix plus
the truncation marker. -/
def boundTranscriptSection (s : String) : String :=
  if s.length > MAX_PROMPT_TRANSCRIPT_CHARS then
    jsSlice s MAX_PROMPT_TRANSCRIPT_CHARS ++ truncationMarker
  else s

/-- The final value of `combinedTranscriptContent`: truncation first, then
the emptiness fallback to the placeholder. -/
def finalTranscriptSection (s : String) : String :=
  let b := boundTranscriptSection s
  if b = "" then noTranscriptsPlaceholder else b

/-- The fixed instruction header of the `systemPrompt` template literal
(everything before the interpolated demographics). -/
def soapPromptHeader : String :=
  "\nYou are a licensed mental-health clinician generating a progress note in SOAP format (Subjective, Objective, Assessment, Plan) based on the provided client information and session transcripts.\n\nInstructions:\n- Use the provided client demographics and transcript content.\n- Structure the note clearly with headings for Subjective, Objective, Assessment, and Plan (e.g., ## Subjective).\n- Subjective: Summarize the client\x27s reported feelings, concerns, and experiences from the transcripts. Use quotes sparingly and appropriately.\n- Objective: Describe the client\x27s presentation, affect, behavior, and mental status observed during the session(s) as inferred from the transcripts. Note participation and engagement.\n- Assessment: Provide a clinical assessment of the client\x27s progress towards treatment goals, current functioning, and any relevant diagnostic impressions based *only* on the provided information. Synthesize subjective and objective data. Note risk assessment if applicable based on content.\n- Plan: Outline the plan for the next session(s), including interventions, focus areas, client homework (if any), and coordination of care needs.\n- Be concise, professional, and use standard clinical language.\n- Ensure the note is based *only* on the information provided below. Do not invent details.\n- Format the output using Markdown.\n\nCLIENT DEMOGRAPHICS:\n"

/-- The `systemPrompt` template literal parameterized by the two
interpolated blocks, followed by `.trim()`. -/
def buildSystemPrompt (clientDemographics combinedTranscriptContent : String) : String :=
  jsTrim (soapPromptHeader ++ clientDemographics
    ++ "\n\nSESSION TRANSCRIPTS:\n" ++ combinedTranscriptContent
    ++ "\n\nGenerate the SOAP progress note now.\n  ")

/-- The `prompt` argument of the `streamText` call. -/
def buildUserPrompt (clientName : String) : String :=
  "Generate a SOAP note for the client " ++ clientName ++ " based on the provided context."

/-- Observable outcome of the `streamText` text stream: the fragments emitted
in arrival order, ending either in normal exhaustion or in a mid-stream
transport/model error. -/
inductive StreamOutcome where
  | ok (fragments : List String)
  | err (fragments : List String) (message : String)
deriving DecidableEq

/-- Errors thrown by `generateSoapNoteContent`. -/
inductive GenError where
  | clientNotFound (clientId : String)
  | upstream (message : String)
  | emptyOutput
deriving DecidableEq

/-- The `Error.message` carried by each `throw` in `generateSoapNoteContent`
(an upstream failure propagates the stream's own error). -/
def GenError.message : GenError → String
  | .clientNotFound cid => "Client not found or access denied for ID: " ++ cid
  | .upstream m => m
  | .emptyOutput => "LLM failed to generate SOAP note content."

/-- Successful result of `generateSoapNoteContent`. -/
structure GenResult where
  fullText : String
  clientName : String
deriving DecidableEq

/-- `transcripts.slice(0, 3)` applied to the ordered transcript query. -/
def recentTranscripts (db : Db) (clientId : String) : List Transcript :=
  (getTranscriptsByClientId db clientId).take 3

/-- `generateSoapNoteContent(clientId, userId)` from
`artifacts/soap/generation.ts`.  The ownership-scoped lookup, the recency
window, the demographics/transcript formatting, truncation and placeholder,
the prompt construction, the accumulation loop over the stream, the
empty-accumulation check (on the untrimmed string) and the final `.trim()`
are all as in the source; the stream outcome is an explicit argument. -/
def generateSoapNoteContent (fmt : LocaleFmt) (db : Db) (clientId userId : String)
    (stream : StreamOutcome) : Except GenError GenResult :=
  match getClientById db clientId userId with
  | none => .error (.clientNotFound clientId)
  | some client =>
    let recent := recentTranscripts db clientId
    let clientDemographics := renderDemographics fmt client
    let combinedTranscriptContent := finalTranscriptSection (combineTranscripts fmt recent)
    let systemPrompt := buildSystemPrompt clientDemographics combinedTranscriptContent
    let userPrompt := buildUserPrompt client.name
    match stream with
    | .err _ m => .error (.upstream m)
    | .ok fragments =>
      let accumulatedText := String.join fragments
      if accumulatedText = "" then .error .emptyOutput
      else
        let _ := systemPrompt
        let _ := userPrompt
        .ok ⟨jsTrim accumulatedText, client.name⟩

/-! ### API route app/api/soap-note/route.ts -/

/-- Responses produced by the `POST` handler of `app/api/soap-note/route.ts`:
401 Unauthorized, 400 bad request, 404 not-found, 500 with the thrown
error's message, or the 200 JSON body. -/
inductive ApiResponse where
  | unauthorized
  | badRequest (error : String)
  | notFoundResp (error : String)
  | serverError (error : String)
  | success (documentId title initialContent : String)
deriving DecidableEq

/-- The `POST` handler: session check, body check, explicit ownership check
(responding 404 "Client not found or access denied." when `getClientById`
resolves nothing), then `generateSoapNoteContent`, then `saveDocument` with a
fresh id and title `SOAP Note - {name}`, returning the document id, title and
content.  Any error thrown by generation is caught and surfaced as a 500
response with the error's message; the database is returned alongside the
response to expose the write. -/
def postSoapNote (fmt : LocaleFmt) (session : Option String) (body : Option String)
    (db : Db) (stream : StreamOutcome) (newDocumentId : String) : ApiResponse × Db :=
  match session with
  | none => (.unauthorized, db)
  | some userId =>
    match body with
    | none => (.badRequest "Missing or invalid clientId", db)
    | some clientId =>
      match getClientById db clientId userId with
      | none => (.notFoundResp "Client not found or access denied.", db)
      | some _ =>
        match generateSoapNoteContent fmt db clientId userId stream with
        | .error e => (.serverError e.message, db)
        | .ok r =>
          let title := "SOAP Note - " ++ r.clientName
          let db2 := saveDocument db ⟨newDocumentId, title, "text", r.fullText, userId⟩
          (.success newDocumentId title r.fullText, db2)

/-! ### Transcript ingestion (app/actions/transcriptActions.ts) -/

/-- The raw values read from the form by `formData.get(...)`; `none` models a
missing field. -/
structure RawFormData where
  clientId : Option String
  sessionDateTime : Option String
  content : Option String
deriving DecidableEq

/-- Field-level errors of `AddTranscriptFormState.errors`; absent keys are
modelled as empty lists. -/
structure FormErrors where
  clientId : List String
  sessionDateTime : List String
  content : List String
  authorization : List String
  general : List String
deriving DecidableEq

/-- The empty error record (no `errors` key present). -/
def FormErrors.none : FormErrors := ⟨[], [], [], [], []⟩

/-- `AddTranscriptFormState` returned by the server action. -/
structure FormState where
  message : String
  success : Bool
  errors : FormErrors
deriving DecidableEq

/-- Hexadecimal digit test used by the UUID shape check. -/
def isHexDigit (c : Char) : Bool :=
  c.isDigit || (Char.ofNat 97 ≤ c && c ≤ Char.ofNat 102) || (Char.ofNat 65 ≤ c && c ≤ Char.ofNat 70)

/-- Models `z.string().uuid()` of `TranscriptSchema`: five hyphen-separated
hex groups of lengths 8-4-4-4-12. -/
def isUuid (s : String) : Bool :=
  match splitOnChar (Char.ofNat 45) s.data with
  | [a, b, c, d, e] =>
    a.length == 8 && b.length == 4 && c.length == 4 && d.length == 4 && e.length == 12
      && (a ++ b ++ c ++ d ++ e).all isHexDigit
  | _ => false

/-- Models `z.coerce.date()` applied to the `datetime-local` string
`YYYY-MM-DDTHH:mm`: on success the timestamp is an order-preserving
mixed-radix `Nat` encoding of (year, month, day, hour, minute); any
malformed string coerces to an invalid date and fails. -/
def parseDateTimeLocal (s : String) : Option Nat :=
  match splitOnChar 'T' s.data with
  | [date, time] =>
    match splitOnChar (Char.ofNat 45) date, splitOnChar (Char.ofNat 58) time with
    | [y, mo, d], [h, mi] =>
      match digitsToNat y, digitsToNat mo, digitsToNat d, digitsToNat h, digitsToNat mi with
      | some yn, some mon, some dn, some hn, some mn =>
        if y.length == 4 && mo.length == 2 && d.length == 2 && h.length == 2 && mi.length == 2
            && 1 ≤ mon && mon ≤ 12 && 1 ≤ dn && dn ≤ 31 && hn ≤ 23 && mn ≤ 59 then
          some (((((yn * 13 + mon) * 32 + dn) * 24 + hn) * 60) + mn)
        else none
      | _, _, _, _, _ => none
    | _, _ => none
  | _ => none

/-- The data produced by a successful `TranscriptSchema.safeParse`. -/
structure ValidTranscriptInput where
  clientId : String
  sessionDateTime : Nat
  content : String
deriving DecidableEq

/-- Models `TranscriptSchema.safeParse(rawFormData)`: `clientId` must be a
UUID, `sessionDateTime` must coerce to a date, `content` must have
`min(1)` length; on failure the flattened field errors carry the messages
declared in the schema (a missing form value is folded into the
corresponding field's failure). -/
def safeParseTranscript (raw : RawFormData) : Except FormErrors ValidTranscriptInput :=
  let cidOk := raw.clientId.bind (fun s => if isUuid s then some s else Option.none)
  let dtOk := raw.sessionDateTime.bind parseDateTimeLocal
  let cOk := raw.content.bind (fun s => if 1 ≤ s.length then some s else Option.none)
  match cidOk, dtOk, cOk with
  | some cid, some dt, some c => .ok ⟨cid, dt, c⟩
  | _, _, _ =>
    .error
      { clientId := if cidOk.isNone then ["Invalid Client ID format."] else []
        sessionDateTime :=
          if dtOk.isNone then
            if raw.sessionDateTime.isNone then ["Session date and time are required."]
            else ["Invalid date and time format. Please ensure you select both date and time."]
          else []
        content := if cOk.isNone then ["Transcript content cannot be empty."] else []
        authorization := []
        general := [] }

/-- `true` when `pat` occurs inside `s`; models
`error.message.includes(pat)`. -/
def messageIncludes (s pat : String) : Bool :=
  containsSeq pat.data s.data

/-- `addTranscriptAction(prevState, formData)` from
`app/actions/transcriptActions.ts`: authentication check, server-side
validation via the schema, ownership check through `getClientById`
(returning the `Authorization failed.` state when no row matches), then
`addTranscript`; a thrown database error is mapped to the duplicate-session
state when its message contains `transcript_client_session_unique_idx` and
to the generic database-error state otherwise.  The (possibly updated)
database is returned alongside the form state. -/
def addTranscriptAction (session : Option String) (formData : RawFormData)
    (db : Db) (newTranscriptId : String) : FormState × Db :=
  match session with
  | none =>
    ({ message := "Authentication required.", success := false,
       errors := { FormErrors.none with authorization := ["User not authenticated."] } }, db)
  | some userId =>
    match safeParseTranscript formData with
    | .error errs =>
      ({ message := "Validation failed. Please check the fields.", success := false,
         errors := errs }, db)
    | .ok v =>
      match getClientById db v.clientId userId with
      | none =>
        ({ message := "Authorization failed.", success := false,
           errors := { FormErrors.none with
                        authorization := ["Client not found or access denied."] } }, db)
      | some _ =>
        match addTranscript db ⟨newTranscriptId, v.clientId, v.sessionDateTime, v.content⟩ with
        | .ok (_, db2) =>
          ({ message := "Transcript added successfully.", success := true,
             errors := FormErrors.none }, db2)
        | .error e =>
          if messageIncludes e.message "transcript_client_session_unique_idx" then
            ({ message := "A transcript for this client at this exact session date and time already exists.",
               success := false,
               errors := { FormErrors.none with
                            sessionDateTime := ["A transcript for this exact date/time already exists."] } }, db)
          else
            ({ message := "Database Error: Failed to add transcript.", success := false,
               errors := { FormErrors.none with
                            general := ["An unexpected error occurred while saving the transcript."] } }, db)

/-! ### Concrete fixtures used by witnesses and counterexamples -/

/-- A fixed locale environment for concrete runs. -/
def sampleFmt : LocaleFmt :=
  ⟨fun _ => "01/01/1990", fun _ => "1/1/2025, 10:00:00 AM"⟩

/-- A well-formed client id. -/
def uuidA : String := "11111111-1111-1111-1111-111111111111"

/-- A client owned by `user-1`. -/
def clientA : Client :=
  ⟨uuidA, "user-1", "Jane Doe", some "1990-01-01", "Female", "", "", [], "", ""⟩

/-- A database holding only `clientA`. -/
def dbA : Db := ⟨[clientA], [], []⟩

/-- A second well-formed client id. -/
def uuidB : String := "22222222-2222-2222-2222-222222222222"

/-- A client owned by `user-2`. -/
def clientB : Client :=
  ⟨uuidB, "user-2", "John Roe", none, "Male", "", "", [], "", ""⟩

/-- A database holding only `clientB`. -/
def dbB : Db := ⟨[clientB], [], []⟩

/-! ### Helper lemmas -/

/-- When no stored client matches both the id and the owner, the
ownership-scoped lookup resolves nothing. -/
theorem getClientById_eq_none {db : Db} {cid uid : String}
    (h : ∀ c ∈ db.clients, c.id ≠ cid ∨ c.userId ≠ uid) :
    getClientById db cid uid = none := by
  unfold getClientById
  have hf : db.clients.filter (fun c => c.id == cid && c.userId == uid) = [] := by
    rw [List.filter_eq_nil_iff]
    intro c hc
    rcases h c hc with h1 | h1 <;> simp [h1]
  rw [hf]
  rfl

/-! ### Claim C2 -/

/-- Claim C2: for every transcript set assembled into context, with `s` the
concatenated rendered transcript section (the trimmed join produced by
`combineTranscripts`): whenever `s` is longer than the configured budget
`MAX_PROMPT_TRANSCRIPT_CHARS`, the assembled transcripts block is exactly the
budget-sized prefix of `s` followed by the fixed truncation marker — never a
shorter prefix, and never missing the marker. -/
theorem c2_truncation_exact (s : String)
    (h : MAX_PROMPT_TRANSCRIPT_CHARS < s.length) :
    finalTranscriptSection s = jsSlice s MAX_PROMPT_TRANSCRIPT_CHARS ++ truncationMarker := by
  have hb : boundTranscriptSection s = jsSlice s MAX_PROMPT_TRANSCRIPT_CHARS ++ truncationMarker := by
    unfold boundTranscriptSection
    exact if_pos h
  have hmark : truncationMarker.length = 39 := rfl
  have hne : jsSlice s MAX_PROMPT_TRANSCRIPT_CHARS ++ truncationMarker ≠ "" := by
    intro heq
    have hlen : (jsSlice s MAX_PROMPT_TRANSCRIPT_CHARS ++ truncationMarker).length = 0 := by
      rw [heq]; rfl
    rw [String.length_append, hmark] at hlen
    omega
  unfold finalTranscriptSection
  rw [hb, if_neg hne]

/-- Witness for C2: a concrete 8001-character section is truncated to the
8000-character prefix plus the marker. -/
theorem c2_truncation_exact_witness :
    MAX_PROMPT_TRANSCRIPT_CHARS < (String.mk (List.replicate 8001 'a')).length ∧
    finalTranscriptSection (String.mk (List.replicate 8001 'a'))
      = jsSlice (String.mk (List.replicate 8001 'a')) MAX_PROMPT_TRANSCRIPT_CHARS
          ++ truncationMarker := by
  have h : MAX_PROMPT_TRANSCRIPT_CHARS < (String.mk (List.replicate 8001 'a')).length := by
    show MAX_PROMPT_TRANSCRIPT_CHARS < (List.replicate 8001 'a').length
    rw [List.length_replicate]
    norm_num [MAX_PROMPT_TRANSCRIPT_CHARS]
  exact ⟨h, c2_truncation_exact _ h⟩

/-! ### Claim C6 -/

/-- Claim C6: if the upstream generation stream fails mid-stream, the pipeline
surfaces the upstream failure to the caller as the error response carrying the
stream's message, and the database — in particular the document store — is
unchanged: no document row exists for that attempt. -/
theorem c6_upstream_failure_no_write (fmt : LocaleFmt) (uid cid docId : String)
    (db : Db) (fragments : List String) (msg : String) (c : Client)
    (hc : getClientById db cid uid = some c) :
    postSoapNote fmt (some uid) (some cid) db (.err fragments msg) docId
      = (.serverError msg, db) := by
  simp [postSoapNote, generateSoapNoteContent, hc, GenError.message]

/-- Witness for C6: a mid-stream network error on a concrete run yields the
error response and leaves the store empty. -/
theorem c6_upstream_failure_no_write_witness :
    getClientById dbA uuidA "user-1" = some clientA ∧
    postSoapNote sampleFmt (some "user-1") (some uuidA) dbA
        (.err ["partial text"] "network error") "doc-1"
      = (.serverError "network error", dbA) :=
  ⟨rfl, c6_upstream_failure_no_write sampleFmt "user-1" uuidA "doc-1" dbA
      ["partial text"] "network error" clientA rfl⟩

/-! ### Claim C9 -/

/-- Claim C9: context assembly and prompt building are deterministic.  Two
runs over equal formatting environments, equal clients and equal transcript
lists produce byte-identical demographics and transcript blocks, and two runs
over equal context blocks and client names produce byte-identical system and
user prompts. -/
theorem c9_determinism :
    (∀ (fmt₁ fmt₂ : LocaleFmt) (c₁ c₂ : Client) (ts₁ ts₂ : List Transcript),
        fmt₁ = fmt₂ → c₁ = c₂ → ts₁ = ts₂ →
        renderDemographics fmt₁ c₁ = renderDemographics fmt₂ c₂ ∧
        finalTranscriptSection (combineTranscripts fmt₁ ts₁)
          = finalTranscriptSection (combineTranscripts fmt₂ ts₂)) ∧
    (∀ (d₁ d₂ s₁ s₂ n₁ n₂ : String), d₁ = d₂ → s₁ = s₂ → n₁ = n₂ →
        buildSystemPrompt d₁ s₁ = buildSystemPrompt d₂ s₂ ∧
        buildUserPrompt n₁ = buildUserPrompt n₂) := by
  constructor
  · rintro fmt₁ fmt₂ c₁ c₂ ts₁ ts₂ rfl rfl rfl
    exact ⟨rfl, rfl⟩
  · rintro d₁ d₂ s₁ s₂ n₁ n₂ rfl rfl rfl
    exact ⟨rfl, rfl⟩

/-- Witness for C9: two identical concrete runs agree byte for byte. -/
theorem c9_determinism_witness :
    (renderDemographics sampleFmt clientA = renderDemographics sampleFmt clientA ∧
     finalTranscriptSection (combineTranscripts sampleFmt [])
       = finalTranscriptSection (combineTranscripts sampleFmt [])) ∧
    (buildSystemPrompt "D" "T" = buildSystemPrompt "D" "T" ∧
     buildUserPrompt "Jane Doe" = buildUserPrompt "Jane Doe") :=
  ⟨c9_determinism.1 sampleFmt sampleFmt clientA clientA [] [] rfl rfl rfl,
   c9_determinism.2 "D" "D" "T" "T" "Jane Doe" "Jane Doe" rfl rfl rfl⟩

/-! ### Claim C3 -/

/-- Claim C3 (amended): for every generation call whose stream completes with
zero accumulated characters, the pipeline yields the empty-output generation
error and writes no document snapshot — the response is the 500 error carrying
the empty-output message and the database is unchanged.  (The stronger clause
of the claim, that an empty document is never persisted, fails: see the
counterexample, where a whitespace-only stream persists a trimmed-empty
document.) -/
theorem c3_zero_chars_empty_output_no_write (fmt : LocaleFmt) (uid cid docId : String)
    (db : Db) (fragments : List String) (c : Client)
    (hc : getClientById db cid uid = some c)
    (hempty : String.join fragments = "") :
    postSoapNote fmt (some uid) (some cid) db (.ok fragments) docId
      = (.serverError "LLM failed to generate SOAP note content.", db) := by
  simp [postSoapNote, generateSoapNoteContent, hc, hempty, GenError.message]

/-- Witness for C3: a stream that emits nothing yields the empty-output error
and leaves the document store untouched. -/
theorem c3_zero_chars_empty_output_no_write_witness :
    getClientById dbA uuidA "user-1" = some clientA ∧
    String.join [] = "" ∧
    postSoapNote sampleFmt (some "user-1") (some uuidA) dbA (.ok []) "doc-1"
      = (.serverError "LLM failed to generate SOAP note content.", dbA) :=
  ⟨rfl, rfl,
   c3_zero_chars_empty_output_no_write sampleFmt "user-1" uuidA "doc-1" dbA [] clientA rfl rfl⟩

/-- Counterexample for C3 as stated: a generation stream consisting of one
whitespace fragment accumulates a non-empty string, so the empty-output check
passes, the trailing `.trim()` empties it, and the route persists a document
snapshot whose content is the empty string — an empty document is persisted by
the generation pipeline. -/
theorem c3_counterexample :
    postSoapNote sampleFmt (some "user-1") (some uuidA) dbA (.ok [" "]) "doc-1"
      = (.success "doc-1" "SOAP Note - Jane Doe" "",
         { clients := [clientA], transcripts := [],
           documents := [⟨"doc-1", "SOAP Note - Jane Doe", "text", "", "user-1"⟩] }) := by
  rfl

/-! ### Claim C10 -/

/-- Claim C10: once the client resolves, the generation function raises the
empty-output error exactly when the untrimmed accumulated stream text is
empty, and otherwise succeeds with the accumulation trimmed of surrounding
whitespace; consequently a stream of whitespace-only fragments succeeds with
the empty string as its returned content. -/
theorem c10_empty_check_untrimmed :
    (∀ (fmt : LocaleFmt) (db : Db) (cid uid : String) (fragments : List String) (c : Client),
        getClientById db cid uid = some c →
        ((generateSoapNoteContent fmt db cid uid (.ok fragments) = .error .emptyOutput
            ↔ String.join fragments = "") ∧
         (String.join fragments ≠ "" →
            generateSoapNoteContent fmt db cid uid (.ok fragments)
              = .ok ⟨jsTrim (String.join fragments), c.name⟩))) ∧
    (∃ fragments : List String, fragments ≠ [] ∧
        (∀ f ∈ fragments, f.data.all Char.isWhitespace) ∧
        generateSoapNoteContent sampleFmt dbB uuidB "user-2" (.ok fragments)
          = .ok ⟨"", "John Roe"⟩) := by
  constructor
  · intro fmt db cid uid fragments c hc
    by_cases hj : String.join fragments = ""
    · simp [generateSoapNoteContent, hc, hj]
    · simp [generateSoapNoteContent, hc, hj]
  · exact ⟨["\n"], by decide, by decide, rfl⟩

/-- Witness for C10: the equivalence applied at a concrete non-empty stream. -/
theorem c10_empty_check_untrimmed_witness :
    getClientById dbB uuidB "user-2" = some clientB ∧
    generateSoapNoteContent sampleFmt dbB uuidB "user-2" (.ok ["  note  "])
      = .ok ⟨"note", "John Roe"⟩ :=
  ⟨rfl,
   (c10_empty_check_untrimmed.1 sampleFmt dbB uuidB "user-2" ["  note  "] clientB rfl).2
     (by decide)⟩

/-! ### Claim C1 -/

/-- The authorization-failure form state produced by both failing runs. -/
def authFailedState : FormState :=
  { message := "Authorization failed.", success := false,
    errors := { FormErrors.none with authorization := ["Client not found or access denied."] } }

/-- Claim C1: a two-run indistinguishability statement.  Run 1 is against a
database in which the requested client does not exist at all; run 2 is against
a database in which every client with that id is owned by a different user.
For both the generation route and the ingestion action, the two runs produce
one and the same non-committal "not found or access denied" outcome, so the
two causes cannot be distinguished from the response. -/
theorem c1_unowned_vs_absent_indistinguishable
    (fmt : LocaleFmt) (uid cid docId tid : String) (db₁ db₂ : Db)
    (stream₁ stream₂ : StreamOutcome) (raw : RawFormData) (v : ValidTranscriptInput)
    (habsent : ∀ c ∈ db₁.clients, c.id ≠ cid)
    (hexists : ∃ c ∈ db₂.clients, c.id = cid)
    (hunowned : ∀ c ∈ db₂.clients, c.id = cid → c.userId ≠ uid)
    (hraw : safeParseTranscript raw = .ok v) (hvc : v.clientId = cid) :
    ((postSoapNote fmt (some uid) (some cid) db₁ stream₁ docId).1
        = .notFoundResp "Client not found or access denied." ∧
     (postSoapNote fmt (some uid) (some cid) db₂ stream₂ docId).1
        = .notFoundResp "Client not found or access denied.") ∧
    ((addTranscriptAction (some uid) raw db₁ tid).1 = authFailedState ∧
     (addTranscriptAction (some uid) raw db₂ tid).1 = authFailedState) := by
  have hn₁ : getClientById db₁ cid uid = none :=
    getClientById_eq_none (fun c hc => Or.inl (habsent c hc))
  have hn₂ : getClientById db₂ cid uid = none :=
    getClientById_eq_none (fun c hc => by
      by_cases hid : c.id = cid
      · exact Or.inr (hunowned c hc hid)
      · exact Or.inl hid)
  refine ⟨⟨?_, ?_⟩, ?_, ?_⟩
  · simp [postSoapNote, hn₁]
  · simp [postSoapNote, hn₂]
  · simp [addTranscriptAction, hraw, hvc, hn₁, authFailedState]
  · simp [addTranscriptAction, hraw, hvc, hn₂, authFailedState]

/-- A form submission naming `clientA`'s id with valid timestamp and content. -/
def rawFormA : RawFormData :=
  ⟨some uuidA, some "2025-01-01T10:00", some "Session went well."⟩

/-- The parse of `rawFormA`. -/
def parsedFormA : ValidTranscriptInput :=
  ⟨uuidA, ((((2025 * 13 + 1) * 32 + 1) * 24 + 10) * 60), "Session went well."⟩

/-- A database in which `uuidA` exists but belongs to `user-other`. -/
def dbUnownedA : Db :=
  ⟨[{ clientA with userId := "user-other" }], [], []⟩

/-- Witness for C1: the empty database (client absent) versus a database in
which the same client id is owned by someone else give identical responses on
both endpoints. -/
theorem c1_unowned_vs_absent_indistinguishable_witness :
    (∀ c ∈ (Db.mk [] [] []).clients, c.id ≠ uuidA) ∧
    (∃ c ∈ dbUnownedA.clients, c.id = uuidA) ∧
    (∀ c ∈ dbUnownedA.clients, c.id = uuidA → c.userId ≠ "user-1") ∧
    safeParseTranscript rawFormA = .ok parsedFormA ∧
    (((postSoapNote sampleFmt (some "user-1") (some uuidA) (Db.mk [] [] []) (.ok ["x"]) "doc-1").1
        = .notFoundResp "Client not found or access denied." ∧
      (postSoapNote sampleFmt (some "user-1") (some uuidA) dbUnownedA (.ok ["x"]) "doc-1").1
        = .notFoundResp "Client not found or access denied.") ∧
     ((addTranscriptAction (some "user-1") rawFormA (Db.mk [] [] []) "t-1").1 = authFailedState ∧
      (addTranscriptAction (some "user-1") rawFormA dbUnownedA "t-1").1 = authFailedState)) :=
  ⟨by decide, by decide, by decide, by rfl,
   c1_unowned_vs_absent_indistinguishable sampleFmt "user-1" uuidA "doc-1" "t-1"
     (Db.mk [] [] []) dbUnownedA (.ok ["x"]) (.ok ["x"]) rawFormA parsedFormA
     (by decide) (by decide) (by decide) (by rfl) (by decide)⟩

/-! ### Claim C8 -/

/-- Claim C8 (amended): (a) every structurally valid ingestion attempt against
an unowned or nonexistent client fails with the same
"Client not found or access denied." authorization error as the access guard,
and the store is unchanged; (b) a validation failure also occurs before any
write: the store is unchanged.  (The claim's parenthetical that access-guard
success comes before anything else fails: validation runs first — see the
counterexample.) -/
theorem c8_guard_and_validation_before_write :
    (∀ (uid tid : String) (db : Db) (raw : RawFormData) (v : ValidTranscriptInput),
        safeParseTranscript raw = .ok v →
        (∀ c ∈ db.clients, c.id ≠ v.clientId ∨ c.userId ≠ uid) →
        addTranscriptAction (some uid) raw db tid = (authFailedState, db)) ∧
    (∀ (uid tid : String) (db : Db) (raw : RawFormData) (errs : FormErrors),
        safeParseTranscript raw = .error errs →
        (addTranscriptAction (some uid) raw db tid).2 = db) := by
  constructor
  · intro uid tid db raw v hraw hguard
    have hn : getClientById db v.clientId uid = none := getClientById_eq_none hguard
    simp [addTranscriptAction, hraw, hn, authFailedState]
  · intro uid tid db raw errs herr
    simp [addTranscriptAction, herr]

/-- A form submission naming `clientA`'s id but with empty content. -/
def rawFormEmptyContent : RawFormData :=
  ⟨some uuidA, some "2025-01-01T10:00", some ""⟩

/-- Counterexample for C8 as stated: an ingestion attempt against an unowned
client with empty content fails with the validation error, not the
authorization error — the structural validation runs before the access guard,
so access-guard success is not required before anything else. -/
theorem c8_counterexample :
    (addTranscriptAction (some "user-1") rawFormEmptyContent dbUnownedA "t-1").1.message
        = "Validation failed. Please check the fields." ∧
    (addTranscriptAction (some "user-1") rawFormEmptyContent dbUnownedA "t-1").1.errors.authorization
        = [] ∧
    (addTranscriptAction (some "user-1") rawFormEmptyContent dbUnownedA "t-1").1 ≠ authFailedState := by
  refine ⟨by decide, by decide, by decide⟩

/-- Witness for C8: the amended statement applied at concrete inputs — a valid
form against an unowned client yields the authorization failure with no write,
and an invalid form yields no write. -/
theorem c8_guard_and_validation_before_write_witness :
    safeParseTranscript rawFormA = .ok parsedFormA ∧
    (∀ c ∈ dbUnownedA.clients, c.id ≠ parsedFormA.clientId ∨ c.userId ≠ "user-1") ∧
    addTranscriptAction (some "user-1") rawFormA dbUnownedA "t-1" = (authFailedState, dbUnownedA) :=
  ⟨by rfl, by decide,
   c8_guard_and_validation_before_write.1 "user-1" "t-1" dbUnownedA rawFormA parsedFormA
     (by rfl) (by decide)⟩

/-! ### Claim C4 -/

/-- A fourth well-formed client id. -/
def uuidD : String := "44444444-4444-4444-4444-444444444444"

/-- A client owned by `user-4`. -/
def clientD : Client :=
  ⟨uuidD, "user-4", "Mary Major", none, "Female", "", "", [], "", ""⟩

/-- The timestamp key of `2025-01-01T10:00`. -/
def dtKeyD : Nat := (((2025 * 13 + 1) * 32 + 1) * 24 + 10) * 60

/-- The transcript created by the first ingestion attempt. -/
def transcriptD : Transcript := ⟨"t-1", uuidD, dtKeyD, "First session."⟩

/-- The database after the first successful ingestion. -/
def dbD : Db := ⟨[clientD], [transcriptD], []⟩

/-- The second ingestion attempt with the identical `(clientId, sessionDateTime)`. -/
def rawFormD : RawFormData :=
  ⟨some uuidD, some "2025-01-01T10:00", some "Second session."⟩

/-- Claim C4, evaluated at the failing input: the database state `dbD` is
exactly the result of a first successful ingestion at `2025-01-01T10:00`; the
second attempt with the identical pair fails and the store still holds exactly
one row for the pair — but the surfaced message is the generic
"Database Error: Failed to add transcript.", not the duplicate-specific one,
because `addTranscript` rethrows a fixed message that does not contain
`transcript_client_session_unique_idx`, even though the storage layer's own
unique-violation error does. -/
theorem c4_duplicate_second_attempt :
    (addTranscriptAction (some "user-4")
        ⟨some uuidD, some "2025-01-01T10:00", some "First session."⟩
        ⟨[clientD], [], []⟩ "t-1").2 = dbD ∧
    (addTranscriptAction (some "user-4") rawFormD dbD "t-2").1.message
        = "Database Error: Failed to add transcript." ∧
    (addTranscriptAction (some "user-4") rawFormD dbD "t-2").1.message
        ≠ "A transcript for this client at this exact session date and time already exists." ∧
    (addTranscriptAction (some "user-4") rawFormD dbD "t-2").2 = dbD ∧
    ((addTranscriptAction (some "user-4") rawFormD dbD "t-2").2.transcripts.filter
        (fun t => t.clientId == uuidD && t.sessionDateTime == dtKeyD)).length = 1 ∧
    dbInsertTranscript dbD ⟨"t-2", uuidD, dtKeyD, "Second session."⟩
        = .error ⟨"duplicate key value violates unique constraint \x22transcript_client_session_unique_idx\x22"⟩ ∧
    messageIncludes "duplicate key value violates unique constraint \x22transcript_client_session_unique_idx\x22"
        "transcript_client_session_unique_idx" = true ∧
    addTranscript dbD ⟨"t-2", uuidD, dtKeyD, "Second session."⟩
        = .error ⟨"Database error adding transcript."⟩ ∧
    messageIncludes "Database error adding transcript."
        "transcript_client_session_unique_idx" = false := by
  refine ⟨by decide, by decide, by decide, by decide, by decide, by rfl, by decide, by rfl, by decide⟩

/-! ### Claim C5 -/

/-- Strict descending session ordering. -/
def sessionStrictDesc (a b : Transcript) : Prop :=
  b.sessionDateTime < a.sessionDateTime

instance : DecidableRel sessionStrictDesc := fun a b =>
  inferInstanceAs (Decidable (b.sessionDateTime < a.sessionDateTime))

instance : IsAntisymm Transcript sessionStrictDesc :=
  ⟨fun _ _ h1 h2 => absurd (Nat.lt_trans h1 h2) (Nat.lt_irrefl _)⟩

/-- Pairwise-distinct session timestamps (what the unique index guarantees for
the rows of one client). -/
def distinctSessions (l : List Transcript) : Prop :=
  l.Pairwise (fun a b => a.sessionDateTime ≠ b.sessionDateTime)

instance (l : List Transcript) : Decidable (distinctSessions l) :=
  inferInstanceAs (Decidable (l.Pairwise _))

/-- The distinct-timestamp relation is symmetric. -/
theorem distinctSessions_symm :
    Symmetric (fun a b : Transcript => a.sessionDateTime ≠ b.sessionDateTime) :=
  fun _ _ h => Ne.symm h

/-- A list sorted weakly descending whose timestamps are pairwise distinct is
sorted strictly descending. -/
theorem strict_of_sorted_distinct {l : List Transcript}
    (hs : List.Sorted sessionDesc l) (hk : distinctSessions l) :
    l.Pairwise sessionStrictDesc :=
  (List.Pairwise.and hs hk).imp
    (fun h => Nat.lt_of_le_of_ne h.1 (fun e => h.2 e.symm))

/-- With pairwise-distinct timestamps, the descending sort is canonical: any
two permutations of the same rows sort to the same list. -/
theorem insertionSort_sessionDesc_canonical {l₁ l₂ : List Transcript}
    (p : l₁.Perm l₂) (hk : distinctSessions l₁) :
    List.insertionSort sessionDesc l₁ = List.insertionSort sessionDesc l₂ := by
  have hs₁ := List.sorted_insertionSort sessionDesc l₁
  have hs₂ := List.sorted_insertionSort sessionDesc l₂
  have hk₁ : distinctSessions (List.insertionSort sessionDesc l₁) :=
    ((List.perm_insertionSort sessionDesc l₁).pairwise_iff (fun h => Ne.symm h)).mpr hk
  have hk₂ : distinctSessions (List.insertionSort sessionDesc l₂) :=
    ((List.perm_insertionSort sessionDesc l₂).pairwise_iff (fun h => Ne.symm h)).mpr
      ((p.pairwise_iff (fun h => Ne.symm h)).mp hk)
  have bigperm : (List.insertionSort sessionDesc l₁).Perm (List.insertionSort sessionDesc l₂) :=
    ((List.perm_insertionSort sessionDesc l₁).trans p).trans
      (List.perm_insertionSort sessionDesc l₂).symm
  exact List.eq_of_perm_of_sorted bigperm
    (strict_of_sorted_distinct hs₁ hk₁) (strict_of_sorted_distinct hs₂ hk₂)

/-- Claim C5: when the client's rows carry pairwise-distinct session
timestamps (the unique-index invariant), the recency window of the context
assembly (a) is independent of the order in which transcripts were inserted
(any permutation of the stored rows yields the same selection), (b) is sorted
strictly descending by `sessionDateTime`, (c) has length `min 3 n` where `n`
is the client's transcript count, (d) draws only from the client's rows, and
(e) dominates every unselected row of that client — so it is exactly the
(up to) 3 transcripts with the greatest `sessionDateTime` values, in
descending order. -/
theorem c5_recency_window (db db' : Db) (cid : String)
    (hperm : db.transcripts.Perm db'.transcripts)
    (hkeys : distinctSessions (db.transcripts.filter (fun t => t.clientId == cid))) :
    recentTranscripts db cid = recentTranscripts db' cid ∧
    (recentTranscripts db cid).Pairwise sessionStrictDesc ∧
    (recentTranscripts db cid).length
      = min 3 (db.transcripts.filter (fun t => t.clientId == cid)).length ∧
    (∀ s ∈ recentTranscripts db cid, s ∈ db.transcripts.filter (fun t => t.clientId == cid)) ∧
    (∀ u ∈ db.transcripts.filter (fun t => t.clientId == cid),
        u ∉ recentTranscripts db cid →
        ∀ s ∈ recentTranscripts db cid, u.sessionDateTime < s.sessionDateTime) := by
  have hpf : (db.transcripts.filter (fun t => t.clientId == cid)).Perm
      (db'.transcripts.filter (fun t => t.clientId == cid)) := hperm.filter _
  have hsorted := List.sorted_insertionSort sessionDesc
    (db.transcripts.filter (fun t => t.clientId == cid))
  have hksorted : distinctSessions (getTranscriptsByClientId db cid) :=
    ((List.perm_insertionSort sessionDesc _).pairwise_iff (fun h => Ne.symm h)).mpr hkeys
  have hstrict : (getTranscriptsByClientId db cid).Pairwise sessionStrictDesc :=
    strict_of_sorted_distinct hsorted hksorted
  refine ⟨?_, ?_, ?_, ?_, ?_⟩
  · show (getTranscriptsByClientId db cid).take 3 = (getTranscriptsByClientId db' cid).take 3
    rw [getTranscriptsByClientId, getTranscriptsByClientId,
      insertionSort_sessionDesc_canonical hpf hkeys]
  · exact List.Pairwise.sublist (List.take_sublist 3 _) hstrict
  · show ((getTranscriptsByClientId db cid).take 3).length = _
    rw [List.length_take, getTranscriptsByClientId,
      (List.perm_insertionSort sessionDesc _).length_eq]
  · intro s hs
    exact (List.perm_insertionSort sessionDesc _).subset (List.take_subset 3 _ hs)
  · intro u hu hnot s hs
    have husort : u ∈ getTranscriptsByClientId db cid :=
      (List.perm_insertionSort sessionDesc _).symm.subset hu
    have hsplit := (List.take_append_drop 3 (getTranscriptsByClientId db cid)).symm
    have hdrop : u ∈ (getTranscriptsByClientId db cid).drop 3 := by
      rcases List.mem_append.mp (hsplit ▸ husort) with h | h
      · exact absurd h hnot
      · exact h
    have hcross := (List.pairwise_append.mp (hsplit ▸ hstrict)).2.2
    exact hcross s hs u hdrop

/-- Five transcripts of one client, inserted out of order. -/
def dbFive : Db :=
  ⟨[], [⟨"t2", "c", 2, "b"⟩, ⟨"t5", "c", 5, "e"⟩, ⟨"t1", "c", 1, "a"⟩,
        ⟨"t4", "c", 4, "d"⟩, ⟨"t3", "c", 3, "f"⟩], []⟩

/-- The same five transcripts in another insertion order. -/
def dbFivePerm : Db :=
  ⟨[], [⟨"t1", "c", 1, "a"⟩, ⟨"t2", "c", 2, "b"⟩, ⟨"t3", "c", 3, "f"⟩,
        ⟨"t4", "c", 4, "d"⟩, ⟨"t5", "c", 5, "e"⟩], []⟩

/-- Witness for C5: for the five-transcript client the window is the three
most recent sessions in descending order, for either insertion order. -/
theorem c5_recency_window_witness :
    dbFive.transcripts.Perm dbFivePerm.transcripts ∧
    distinctSessions (dbFive.transcripts.filter (fun t => t.clientId == "c")) ∧
    recentTranscripts dbFive "c" = recentTranscripts dbFivePerm "c" ∧
    (recentTranscripts dbFive "c").Pairwise sessionStrictDesc ∧
    recentTranscripts dbFive "c"
      = [⟨"t5", "c", 5, "e"⟩, ⟨"t4", "c", 4, "d"⟩, ⟨"t3", "c", 3, "f"⟩] :=
  ⟨by decide, by decide,
   (c5_recency_window dbFive dbFivePerm "c" (by decide) (by decide)).1,
   (c5_recency_window dbFive dbFivePerm "c" (by decide) (by decide)).2.1,
   by decide⟩

end EHR
